import Mathlib

/-!
Verification of the streaming return-sweep detector (`PangDetector` in
`src/easy-seeso.js`).  JavaScript numbers are modelled as rationals (`ℚ`);
the circular gaze buffers `_gx`, `_gy`, `_gt` are modelled as functions
`ℕ → ℚ` indexed exactly as the source indexes them; the trigger callback
`onPang(targetLine, vx1)` is modelled as an optional output `(ℤ × ℚ)` of the
processing step.  Fields keep the source's names with the leading underscore
dropped.  `_currentLine` (`null` = outside every line) is `Option ℕ`;
`_lineYs` (`null` until `lockLayout`) is `Option (List ℚ)`.
-/

/-- The scalar state of `PangDetector` (constructor, src/easy-seeso.js
lines 278–315).  The typed-array references and the callback are not state:
buffers are passed to `process` as arguments and the callback invocation is
the step's output. -/
structure DetState where
  sx1 : ℚ
  sx2 : ℚ
  vx2 : ℚ
  lastPeakTime : ℚ
  lastTriggerTime : ℚ
  maxLineReached : ℤ
  firstContentTime : ℚ
  lineYs : Option (List ℚ)
  lineHalf : ℚ
  lineCount : ℕ
  currentLine : Option ℕ
  lastLineChangeT : ℚ
  deriving DecidableEq, Repr

/-- The state a freshly constructed `PangDetector` starts in
(constructor body, lines 289–314). -/
def initState : DetState where
  sx1 := 0
  sx2 := 0
  vx2 := 0
  lastPeakTime := 0
  lastTriggerTime := 0
  maxLineReached := -1
  firstContentTime := 0
  lineYs := none
  lineHalf := 0
  lineCount := 0
  currentLine := none
  lastLineChangeT := 0

/-- `lockLayout(lineYs, lineHalfH)` (lines 322–340).  `performance.now()` is
supplied as the extra argument `now`. -/
def lockLayout (s : DetState) (ys : List ℚ) (lineHalfH now : ℚ) : DetState :=
  { s with
    lineYs := some ys
    lineHalf := lineHalfH
    lineCount := ys.length
    firstContentTime := now
    maxLineReached := -1
    currentLine := none
    lastLineChangeT := 0
    lastPeakTime := 0
    lastTriggerTime := 0
    sx1 := 0
    sx2 := 0
    vx2 := 0 }

/-- `reset()` (lines 440–450).  Note the source does not touch `_lineHalf`. -/
def reset (s : DetState) : DetState :=
  { s with
    sx1 := 0
    sx2 := 0
    vx2 := 0
    lastPeakTime := 0
    lastTriggerTime := 0
    maxLineReached := -1
    firstContentTime := 0
    currentLine := none
    lastLineChangeT := 0
    lineYs := none
    lineCount := 0 }

/-- One iteration test of the scan loop in `_updateLineFromGaze`
(line 463): `gazeY >= ys[i] - half && gazeY <= ys[i] + half`.  An index past
the end of the array reads `undefined` in JavaScript and both comparisons
are then false, hence the `none => false` arm. -/
def lineHit (ys : List ℚ) (half gazeY : ℚ) (i : ℕ) : Bool :=
  match ys.get? i with
  | some c => decide (c - half ≤ gazeY ∧ gazeY ≤ c + half)
  | none => false

/-- The `for (let i = 0; i < n; i++)` scan of `_updateLineFromGaze`
(lines 462–470): first index `i` (starting at `start`, `fuel` iterations
remaining) whose line band contains `gazeY`. -/
def scanLoop (ys : List ℚ) (half gazeY : ℚ) : ℕ → ℕ → Option ℕ
  | 0, _ => none
  | fuel + 1, i => if lineHit ys half gazeY i then some i else scanLoop ys half gazeY fuel (i + 1)

/-- `_updateLineFromGaze(gazeY, t)` (lines 455–476): guard
`!this._lineYs || this._lineCount === 0`, then the scan; on a hit at a new
index set `_currentLine`/`_lastLineChangeT`, on a miss leave everything
unchanged (sticky). -/
def updateLineFromGaze (s : DetState) (gazeY t : ℚ) : DetState :=
  match s.lineYs with
  | none => s
  | some ys =>
    if s.lineCount = 0 then s
    else
      match scanLoop ys s.lineHalf gazeY s.lineCount 0 with
      | some i =>
        if s.currentLine = some i then s
        else { s with currentLine := some i, lastLineChangeT := t }
      | none => s

/-- The guarded difference quotient written twice in `process`
(lines 381–382): `dt > 0 ? dx / dt : 0.0`. -/
def velocity (dx dt : ℚ) : ℚ :=
  if 0 < dt then dx / dt else 0

/-- The 3-tap low-pass filter of `process` line 372:
`x0 * 0.5 + x1 * 0.3 + x2 * 0.2`. -/
def smoothX (x0 x1 x2 : ℚ) : ℚ :=
  x0 * (5 / 10) + x1 * (3 / 10) + x2 * (2 / 10)

/-- Stages A–D of `process` (lines 367–394): hit-test, smoothing-cache
rolling update, velocity-cache rolling update, and position-peak /
velocity-zero-crossing tracking.  This is the state `process` has built
when it reaches the valley check on line 399. -/
def stageD (s : DetState) (t0 t1 t2 x0 x1 x2 y0 : ℚ) : DetState :=
  let sA := updateLineFromGaze s y0 t0
  let sx0 := smoothX x0 x1 x2
  let sB := { sA with sx2 := sA.sx1, sx1 := sx0 }
  let vx0 := velocity (x0 - x1) (t0 - t1)
  let vx1 := velocity (x1 - x2) (t1 - t2)
  let sC := { sB with vx2 := vx1 }
  if (sA.sx2 ≤ sA.sx1 ∧ sx0 < sA.sx1) ∨ (0 ≤ vx1 ∧ vx0 < 0) then
    { sC with lastPeakTime := t1 }
  else sC

/-- Stages F–G and the fire block of `process` (lines 403–434), entered only
when a deep velocity valley was detected.  `now = t0`; `t1` is the valley
timestamp; `vx1` the valley velocity.  Returns the updated state and the
callback invocation, if any. -/
def gateAndFire (s : DetState) (now t1 vx1 : ℚ) : DetState × Option (ℤ × ℚ) :=
  if s.firstContentTime = 0 ∨ now < s.firstContentTime then (s, none)
  else if now - s.lastTriggerTime < 500 then (s, none)
  else if 600 ≤ |t1 - s.lastPeakTime| then (s, none)
  else
    match s.currentLine with
    | none => (s, none)
    | some line =>
      if line = 0 then (s, none)
      else if (line : ℤ) ≤ s.maxLineReached then (s, none)
      else
        ({ s with lastTriggerTime := now, maxLineReached := (line : ℤ), lastPeakTime := 0 },
          some (((line : ℤ) - 1, vx1)))

/-- The body of `process` from line 357 on, applied to the three most recent
samples `(t0, x0, y0)`, `(t1, x1, _)`, `(t2, x2, _)` already read from the
circular buffers.  Lines 396–401: V-shape `vx2 > vx1 < vx0` with depth
`vx1 < -0.4`; on failure the step ends with the stage-D state and no
callback. -/
def processStep (s : DetState) (t0 t1 t2 x0 x1 x2 y0 : ℚ) : DetState × Option (ℤ × ℚ) :=
  let sD := stageD s t0 t1 t2 x0 x1 x2 y0
  let vx0 := velocity (x0 - x1) (t0 - t1)
  let vx1 := velocity (x1 - x2) (t1 - t2)
  if (vx1 < s.vx2 ∧ vx1 < vx0) ∧ vx1 < -(4 / 10) then gateAndFire sD t0 t1 vx1
  else (sD, none)

/-- `process(gIdx, gCount)` (lines 347–435): the `gCount < 3` guard, the
circular-buffer index computation `(gIdx - 1 + N) % N` (etc.), the reads of
the three newest samples, then the step body.  `gIdx + N - k` agrees with the
source's `gIdx - k + N` whenever `3 ≤ gIdx + N`, which holds for every call
the ingestion loop makes (`N = MAX_GAZE_ENTRIES ≥ 3`). -/
def process (s : DetState) (gx gy gt : ℕ → ℚ) (N gIdx gCount : ℕ) :
    DetState × Option (ℤ × ℚ) :=
  if gCount < 3 then (s, none)
  else
    let i0 := (gIdx + N - 1) % N
    let i1 := (gIdx + N - 2) % N
    let i2 := (gIdx + N - 3) % N
    processStep s (gt i0) (gt i1) (gt i2) (gx i0) (gx i1) (gx i2) (gy i0)

/-- One processing step's inputs: the three newest buffered samples as
`process` reads them. -/
structure StepIn where
  t0 : ℚ
  t1 : ℚ
  t2 : ℚ
  x0 : ℚ
  x1 : ℚ
  x2 : ℚ
  y0 : ℚ
  deriving DecidableEq, Repr

/-- Run `processStep` on each element of a list of step inputs, collecting
every callback invocation `(targetLine, vx1)` in order. -/
def runSteps (s : DetState) : List StepIn → DetState × List (ℤ × ℚ)
  | [] => (s, [])
  | a :: L =>
    let r := processStep s a.t0 a.t1 a.t2 a.x0 a.x1 a.x2 a.y0
    let rest := runSteps r.1 L
    (rest.1, match r.2 with
      | none => rest.2
      | some e => e :: rest.2)

/-- Run `processStep` on each element of a list of step inputs, collecting
the `now` (= newest-sample timestamp `t0`) of every step that fired the
callback. -/
def fireTimes (s : DetState) : List StepIn → List ℚ
  | [] => []
  | a :: L =>
    let r := processStep s a.t0 a.t1 a.t2 a.x0 a.x1 a.x2 a.y0
    match r.2 with
    | none => fireTimes r.1 L
    | some _ => a.t0 :: fireTimes r.1 L

/-- Modelled from the spec (§4.2 Line Hit-Test): the first index `i` with
`|y - centerY[i]| ≤ halfHeight`, `none` when no line matches. -/
def specFirstMatch (half y : ℚ) : List ℚ → Option ℕ
  | [] => none
  | c :: rest =>
    if |y - c| ≤ half then some 0
    else (specFirstMatch half y rest).map (· + 1)

/-- A detector state in which the samples `(980, 0, _)`, `(990, -10, _)`,
`(1000, -10, 100)` make `processStep` fire: layout of two lines at
center-Y 0 and 100 with half-height 10, content started at 1 ms, no
previous trigger, smoothing caches forming a position peak. -/
def demoFireState : DetState where
  sx1 := 5
  sx2 := 0
  vx2 := 0
  lastPeakTime := 0
  lastTriggerTime := 0
  maxLineReached := -1
  firstContentTime := 1
  lineYs := some [0, 100]
  lineHalf := 10
  lineCount := 2
  currentLine := none
  lastLineChangeT := 0

/-- A detector state and samples for which no velocity valley is detected
(all velocities 0) while the hit-test and the peak tracker still update. -/
def demoNoValleyState : DetState where
  sx1 := 5
  sx2 := 0
  vx2 := 0
  lastPeakTime := 0
  lastTriggerTime := 0
  maxLineReached := -1
  firstContentTime := 1
  lineYs := some [100]
  lineHalf := 5
  lineCount := 1
  currentLine := none
  lastLineChangeT := 0

/-- An arbitrary dirty detector state that was never layout-locked
(`lineHalf` still 0, as the constructor sets it). -/
def demoDirtyState : DetState where
  sx1 := 7
  sx2 := -3
  vx2 := 2
  lastPeakTime := 123
  lastTriggerTime := 456
  maxLineReached := 4
  firstContentTime := 789
  lineYs := some [1, 2, 3]
  lineHalf := 0
  lineCount := 3
  currentLine := some 2
  lastLineChangeT := 111

/-- A locked two-line state (lines at center-Y 10 and 30, half-height 5)
currently on line 0, used to exercise the hit-test. -/
def demoHitState : DetState where
  sx1 := 0
  sx2 := 0
  vx2 := 0
  lastPeakTime := 0
  lastTriggerTime := 0
  maxLineReached := -1
  firstContentTime := 1
  lineYs := some [10, 30]
  lineHalf := 5
  lineCount := 2
  currentLine := some 0
  lastLineChangeT := 0

/-- Concrete gaze buffer used to exercise `process`: sample `i` has value `i`. -/
def demoBuf : ℕ → ℚ := fun i => (i : ℚ)

/-- Concrete all-zero gaze buffer. -/
def demoZeroBuf : ℕ → ℚ := fun _ => 0

theorem uL_sx1 (s : DetState) (y t : ℚ) : (updateLineFromGaze s y t).sx1 = s.sx1 := by
  unfold updateLineFromGaze
  repeat' split
  all_goals rfl

theorem uL_sx2 (s : DetState) (y t : ℚ) : (updateLineFromGaze s y t).sx2 = s.sx2 := by
  unfold updateLineFromGaze
  repeat' split
  all_goals rfl

theorem uL_vx2 (s : DetState) (y t : ℚ) : (updateLineFromGaze s y t).vx2 = s.vx2 := by
  unfold updateLineFromGaze
  repeat' split
  all_goals rfl

theorem uL_lastPeakTime (s : DetState) (y t : ℚ) :
    (updateLineFromGaze s y t).lastPeakTime = s.lastPeakTime := by
  unfold updateLineFromGaze
  repeat' split
  all_goals rfl

theorem uL_lastTriggerTime (s : DetState) (y t : ℚ) :
    (updateLineFromGaze s y t).lastTriggerTime = s.lastTriggerTime := by
  unfold updateLineFromGaze
  repeat' split
  all_goals rfl

theorem uL_maxLineReached (s : DetState) (y t : ℚ) :
    (updateLineFromGaze s y t).maxLineReached = s.maxLineReached := by
  unfold updateLineFromGaze
  repeat' split
  all_goals rfl

theorem uL_firstContentTime (s : DetState) (y t : ℚ) :
    (updateLineFromGaze s y t).firstContentTime = s.firstContentTime := by
  unfold updateLineFromGaze
  repeat' split
  all_goals rfl

theorem uL_lineYs (s : DetState) (y t : ℚ) : (updateLineFromGaze s y t).lineYs = s.lineYs := by
  unfold updateLineFromGaze
  repeat' split
  all_goals rfl

theorem uL_lineHalf (s : DetState) (y t : ℚ) :
    (updateLineFromGaze s y t).lineHalf = s.lineHalf := by
  unfold updateLineFromGaze
  repeat' split
  all_goals rfl

theorem uL_lineCount (s : DetState) (y t : ℚ) :
    (updateLineFromGaze s y t).lineCount = s.lineCount := by
  unfold updateLineFromGaze
  repeat' split
  all_goals rfl

theorem stageD_eq (s : DetState) (t0 t1 t2 x0 x1 x2 y0 : ℚ) :
    stageD s t0 t1 t2 x0 x1 x2 y0 =
      { updateLineFromGaze s y0 t0 with
        sx1 := smoothX x0 x1 x2
        sx2 := s.sx1
        vx2 := velocity (x1 - x2) (t1 - t2)
        lastPeakTime :=
          if (s.sx2 ≤ s.sx1 ∧ smoothX x0 x1 x2 < s.sx1) ∨
              (0 ≤ velocity (x1 - x2) (t1 - t2) ∧ velocity (x0 - x1) (t0 - t1) < 0) then t1
          else s.lastPeakTime } := by
  simp only [stageD, uL_sx1, uL_sx2, uL_vx2, uL_lastPeakTime]
  split <;> rfl

theorem sD_lastTriggerTime1 (s : DetState) (t0 t1 t2 x0 x1 x2 y0 : ℚ) :
    (stageD s t0 t1 t2 x0 x1 x2 y0).lastTriggerTime = s.lastTriggerTime := by
  simp [stageD_eq, uL_lastTriggerTime]

theorem sD_maxLineReached1 (s : DetState) (t0 t1 t2 x0 x1 x2 y0 : ℚ) :
    (stageD s t0 t1 t2 x0 x1 x2 y0).maxLineReached = s.maxLineReached := by
  simp [stageD_eq, uL_maxLineReached]

theorem sD_firstContentTime1 (s : DetState) (t0 t1 t2 x0 x1 x2 y0 : ℚ) :
    (stageD s t0 t1 t2 x0 x1 x2 y0).firstContentTime = s.firstContentTime := by
  simp [stageD_eq, uL_firstContentTime]

theorem sD_currentLine1 (s : DetState) (t0 t1 t2 x0 x1 x2 y0 : ℚ) :
    (stageD s t0 t1 t2 x0 x1 x2 y0).currentLine = (updateLineFromGaze s y0 t0).currentLine := by
  simp [stageD_eq]

theorem sD_lineYs1 (s : DetState) (t0 t1 t2 x0 x1 x2 y0 : ℚ) :
    (stageD s t0 t1 t2 x0 x1 x2 y0).lineYs = s.lineYs := by
  simp [stageD_eq, uL_lineYs]

theorem gate_cases (s : DetState) (now t1 v : ℚ) :
    gateAndFire s now t1 v = (s, none) ∨
      ∃ line : ℕ, s.currentLine = some line ∧ line ≠ 0 ∧
        s.maxLineReached < (line : ℤ) ∧
        s.firstContentTime ≠ 0 ∧ s.firstContentTime ≤ now ∧
        500 ≤ now - s.lastTriggerTime ∧ |t1 - s.lastPeakTime| < 600 ∧
        gateAndFire s now t1 v =
          ({ s with lastTriggerTime := now, maxLineReached := (line : ℤ), lastPeakTime := 0 },
            some ((line : ℤ) - 1, v)) := by
  unfold gateAndFire
  repeat' split
  all_goals try exact Or.inl rfl
  rename_i hfc hcd hcw oscr line heq hl0 hml
  push_neg at hfc hcd hcw hml
  exact Or.inr ⟨line, heq, hl0, hml, hfc.1, hfc.2, hcd, hcw, rfl⟩

theorem processStep_cases (s : DetState) (t0 t1 t2 x0 x1 x2 y0 : ℚ) :
    (¬((velocity (x1 - x2) (t1 - t2) < s.vx2 ∧
          velocity (x1 - x2) (t1 - t2) < velocity (x0 - x1) (t0 - t1)) ∧
        velocity (x1 - x2) (t1 - t2) < -(4 / 10)) ∧
      processStep s t0 t1 t2 x0 x1 x2 y0 = (stageD s t0 t1 t2 x0 x1 x2 y0, none)) ∨
    (((velocity (x1 - x2) (t1 - t2) < s.vx2 ∧
          velocity (x1 - x2) (t1 - t2) < velocity (x0 - x1) (t0 - t1)) ∧
        velocity (x1 - x2) (t1 - t2) < -(4 / 10)) ∧
      processStep s t0 t1 t2 x0 x1 x2 y0 =
        gateAndFire (stageD s t0 t1 t2 x0 x1 x2 y0) t0 t1 (velocity (x1 - x2) (t1 - t2))) := by
  by_cases h : (velocity (x1 - x2) (t1 - t2) < s.vx2 ∧
      velocity (x1 - x2) (t1 - t2) < velocity (x0 - x1) (t0 - t1)) ∧
      velocity (x1 - x2) (t1 - t2) < -(4 / 10)
  · refine Or.inr ⟨h, ?_⟩
    simp only [processStep]
    rw [if_pos h]
  · refine Or.inl ⟨h, ?_⟩
    simp only [processStep]
    rw [if_neg h]

theorem step_none (s : DetState) (t0 t1 t2 x0 x1 x2 y0 : ℚ)
    (h : (processStep s t0 t1 t2 x0 x1 x2 y0).2 = none) :
    (processStep s t0 t1 t2 x0 x1 x2 y0).1 = stageD s t0 t1 t2 x0 x1 x2 y0 := by
  rcases processStep_cases s t0 t1 t2 x0 x1 x2 y0 with ⟨-, heq⟩ | ⟨-, heq⟩
  · rw [heq]
  · rcases gate_cases (stageD s t0 t1 t2 x0 x1 x2 y0) t0 t1 (velocity (x1 - x2) (t1 - t2)) with
      hnone | ⟨line, -, -, -, -, -, -, -, hfire⟩
    · rw [heq, hnone]
    · rw [heq, hfire] at h
      simp at h

theorem step_fire (s : DetState) (t0 t1 t2 x0 x1 x2 y0 : ℚ) (k : ℤ) (w : ℚ)
    (h : (processStep s t0 t1 t2 x0 x1 x2 y0).2 = some (k, w)) :
    ∃ line : ℕ,
      (updateLineFromGaze s y0 t0).currentLine = some line ∧ line ≠ 0 ∧
      s.maxLineReached < (line : ℤ) ∧ k = (line : ℤ) - 1 ∧
      w = velocity (x1 - x2) (t1 - t2) ∧ w < -(4 / 10) ∧
      s.firstContentTime ≠ 0 ∧ s.firstContentTime ≤ t0 ∧
      500 ≤ t0 - s.lastTriggerTime ∧
      |t1 - (stageD s t0 t1 t2 x0 x1 x2 y0).lastPeakTime| < 600 ∧
      (processStep s t0 t1 t2 x0 x1 x2 y0).1 =
        { stageD s t0 t1 t2 x0 x1 x2 y0 with
            lastTriggerTime := t0, maxLineReached := (line : ℤ), lastPeakTime := 0 } := by
  rcases processStep_cases s t0 t1 t2 x0 x1 x2 y0 with ⟨-, heq⟩ | ⟨hv, heq⟩
  · rw [heq] at h
    simp at h
  · rcases gate_cases (stageD s t0 t1 t2 x0 x1 x2 y0) t0 t1 (velocity (x1 - x2) (t1 - t2)) with
      hnone | ⟨line, hcl, hl0, hml, hfc, hfc2, hcd, hcw, hfire⟩
    · rw [heq, hnone] at h
      simp at h
    · rw [heq, hfire] at h
      simp only [Option.some.injEq, Prod.mk.injEq] at h
      rw [sD_currentLine1] at hcl
      rw [sD_maxLineReached1] at hml
      rw [sD_firstContentTime1] at hfc hfc2
      rw [sD_lastTriggerTime1] at hcd
      refine ⟨line, hcl, hl0, hml, h.1.symm, h.2.symm, ?_, hfc, hfc2, hcd, hcw, ?_⟩
      · rw [← h.2]
        exact hv.2
      · rw [heq, hfire]

theorem runSteps_out (L : List StepIn) : ∀ s : DetState,
    List.Pairwise (fun a b : ℤ × ℚ => a.1 < b.1) (runSteps s L).2 ∧
    ∀ e ∈ (runSteps s L).2, s.maxLineReached ≤ e.1 := by
  induction L with
  | nil =>
    intro s
    simp [runSteps]
  | cons a L ih =>
    intro s
    simp only [runSteps]
    cases hout : (processStep s a.t0 a.t1 a.t2 a.x0 a.x1 a.x2 a.y0).2 with
    | none =>
      have hst := step_none _ _ _ _ _ _ _ _ hout
      have hmax : (processStep s a.t0 a.t1 a.t2 a.x0 a.x1 a.x2 a.y0).1.maxLineReached
          = s.maxLineReached := by
        rw [hst, sD_maxLineReached1]
      rcases ih ((processStep s a.t0 a.t1 a.t2 a.x0 a.x1 a.x2 a.y0).1) with ⟨hpw, hge⟩
      refine ⟨hpw, fun e he => ?_⟩
      have := hge e he
      rw [hmax] at this
      exact this
    | some e0 =>
      obtain ⟨k, w⟩ := e0
      obtain ⟨line, hcl, hl0, hml, hk, hw, hwlt, -, -, -, -, hst⟩ :=
        step_fire _ _ _ _ _ _ _ _ _ _ hout
      have hmax : (processStep s a.t0 a.t1 a.t2 a.x0 a.x1 a.x2 a.y0).1.maxLineReached
          = (line : ℤ) := by
        rw [hst]
      rcases ih ((processStep s a.t0 a.t1 a.t2 a.x0 a.x1 a.x2 a.y0).1) with ⟨hpw, hge⟩
      constructor
      · refine List.Pairwise.cons (fun e he => ?_) hpw
        have := hge e he
        rw [hmax] at this
        simp only []
        omega
      · intro e he
        rcases List.mem_cons.mp he with rfl | he'
        · simp only []
          omega
        · have := hge e he'
          rw [hmax] at this
          omega

theorem sD_sx1_val (s : DetState) (t0 t1 t2 x0 x1 x2 y0 : ℚ) :
    (stageD s t0 t1 t2 x0 x1 x2 y0).sx1 = smoothX x0 x1 x2 := by
  simp [stageD_eq]

theorem sD_sx2_val (s : DetState) (t0 t1 t2 x0 x1 x2 y0 : ℚ) :
    (stageD s t0 t1 t2 x0 x1 x2 y0).sx2 = s.sx1 := by
  simp [stageD_eq]

theorem sD_vx2_val (s : DetState) (t0 t1 t2 x0 x1 x2 y0 : ℚ) :
    (stageD s t0 t1 t2 x0 x1 x2 y0).vx2 = velocity (x1 - x2) (t1 - t2) := by
  simp [stageD_eq]

theorem step_sx1 (s : DetState) (t0 t1 t2 x0 x1 x2 y0 : ℚ) :
    (processStep s t0 t1 t2 x0 x1 x2 y0).1.sx1 = smoothX x0 x1 x2 := by
  cases hout : (processStep s t0 t1 t2 x0 x1 x2 y0).2 with
  | none =>
    rw [step_none _ _ _ _ _ _ _ _ hout, sD_sx1_val]
  | some e0 =>
    obtain ⟨k, w⟩ := e0
    obtain ⟨line, -, -, -, -, -, -, -, -, -, -, hst⟩ := step_fire _ _ _ _ _ _ _ _ _ _ hout
    rw [hst]
    exact sD_sx1_val s t0 t1 t2 x0 x1 x2 y0

theorem step_sx2 (s : DetState) (t0 t1 t2 x0 x1 x2 y0 : ℚ) :
    (processStep s t0 t1 t2 x0 x1 x2 y0).1.sx2 = s.sx1 := by
  cases hout : (processStep s t0 t1 t2 x0 x1 x2 y0).2 with
  | none =>
    rw [step_none _ _ _ _ _ _ _ _ hout, sD_sx2_val]
  | some e0 =>
    obtain ⟨k, w⟩ := e0
    obtain ⟨line, -, -, -, -, -, -, -, -, -, -, hst⟩ := step_fire _ _ _ _ _ _ _ _ _ _ hout
    rw [hst]
    exact sD_sx2_val s t0 t1 t2 x0 x1 x2 y0

theorem step_vx2 (s : DetState) (t0 t1 t2 x0 x1 x2 y0 : ℚ) :
    (processStep s t0 t1 t2 x0 x1 x2 y0).1.vx2 = velocity (x1 - x2) (t1 - t2) := by
  cases hout : (processStep s t0 t1 t2 x0 x1 x2 y0).2 with
  | none =>
    rw [step_none _ _ _ _ _ _ _ _ hout, sD_vx2_val]
  | some e0 =>
    obtain ⟨k, w⟩ := e0
    obtain ⟨line, -, -, -, -, -, -, -, -, -, -, hst⟩ := step_fire _ _ _ _ _ _ _ _ _ _ hout
    rw [hst]
    exact sD_vx2_val s t0 t1 t2 x0 x1 x2 y0

theorem step_nolayout (s : DetState) (t0 t1 t2 x0 x1 x2 y0 : ℚ)
    (hys : s.lineYs = none) (hcl : s.currentLine = none) :
    processStep s t0 t1 t2 x0 x1 x2 y0 = (stageD s t0 t1 t2 x0 x1 x2 y0, none) ∧
    (stageD s t0 t1 t2 x0 x1 x2 y0).lineYs = none ∧
    (stageD s t0 t1 t2 x0 x1 x2 y0).currentLine = none := by
  have hUL : updateLineFromGaze s y0 t0 = s := by
    unfold updateLineFromGaze
    rw [hys]
  have h1 : (stageD s t0 t1 t2 x0 x1 x2 y0).lineYs = none := by
    rw [sD_lineYs1]
    exact hys
  have h2 : (stageD s t0 t1 t2 x0 x1 x2 y0).currentLine = none := by
    rw [sD_currentLine1, hUL]
    exact hcl
  refine ⟨?_, h1, h2⟩
  rcases processStep_cases s t0 t1 t2 x0 x1 x2 y0 with ⟨-, heq⟩ | ⟨-, heq⟩
  · exact heq
  · rw [heq]
    rcases gate_cases (stageD s t0 t1 t2 x0 x1 x2 y0) t0 t1 (velocity (x1 - x2) (t1 - t2)) with
      hnone | ⟨line, hcl', -⟩
    · rw [hnone]
    · rw [h2] at hcl'
      simp at hcl'

theorem runSteps_nolayout (L : List StepIn) : ∀ s : DetState,
    s.lineYs = none → s.currentLine = none →
    (runSteps s L).2 = [] ∧ (runSteps s L).1.lineYs = none ∧
      (runSteps s L).1.currentLine = none := by
  induction L with
  | nil =>
    intro s hys hcl
    exact ⟨rfl, hys, hcl⟩
  | cons a L ih =>
    intro s hys hcl
    obtain ⟨heq, h1, h2⟩ := step_nolayout s a.t0 a.t1 a.t2 a.x0 a.x1 a.x2 a.y0 hys hcl
    simp only [runSteps, heq]
    exact ih _ h1 h2

theorem fireTimes_out (L : List StepIn) : ∀ s : DetState,
    List.Pairwise (fun p q : ℚ => 500 ≤ q - p) (fireTimes s L) ∧
    ∀ f ∈ fireTimes s L, 500 ≤ f - s.lastTriggerTime := by
  induction L with
  | nil =>
    intro s
    simp [fireTimes]
  | cons a L ih =>
    intro s
    simp only [fireTimes]
    cases hout : (processStep s a.t0 a.t1 a.t2 a.x0 a.x1 a.x2 a.y0).2 with
    | none =>
      have hltt : (processStep s a.t0 a.t1 a.t2 a.x0 a.x1 a.x2 a.y0).1.lastTriggerTime
          = s.lastTriggerTime := by
        rw [step_none _ _ _ _ _ _ _ _ hout, sD_lastTriggerTime1]
      rcases ih ((processStep s a.t0 a.t1 a.t2 a.x0 a.x1 a.x2 a.y0).1) with ⟨hpw, hge⟩
      refine ⟨hpw, fun f hf => ?_⟩
      have := hge f hf
      rw [hltt] at this
      exact this
    | some e0 =>
      obtain ⟨k, w⟩ := e0
      obtain ⟨line, -, -, -, -, -, -, -, -, hcd, -, hst⟩ :=
        step_fire _ _ _ _ _ _ _ _ _ _ hout
      have hltt : (processStep s a.t0 a.t1 a.t2 a.x0 a.x1 a.x2 a.y0).1.lastTriggerTime
          = a.t0 := by
        rw [hst]
      rcases ih ((processStep s a.t0 a.t1 a.t2 a.x0 a.x1 a.x2 a.y0).1) with ⟨hpw, hge⟩
      constructor
      · refine List.Pairwise.cons (fun f hf => ?_) hpw
        have := hge f hf
        rw [hltt] at this
        exact this
      · intro f hf
        rcases List.mem_cons.mp hf with rfl | hf'
        · exact hcd
        · have := hge f hf'
          rw [hltt] at this
          linarith

theorem get_append_cons (pre : List ℚ) (c : ℚ) (rest : List ℚ) :
    (pre ++ c :: rest).get? pre.length = some c := by
  induction pre with
  | nil => rfl
  | cons p pre ih => simpa using ih

theorem scanLoop_spec (half y : ℚ) (suf : List ℚ) : ∀ pre : List ℚ,
    scanLoop (pre ++ suf) half y suf.length pre.length
      = (specFirstMatch half y suf).map (· + pre.length) := by
  induction suf with
  | nil =>
    intro pre
    simp [scanLoop, specFirstMatch]
  | cons c rest ih =>
    intro pre
    have hhit : lineHit (pre ++ c :: rest) half y pre.length
        = decide (c - half ≤ y ∧ y ≤ c + half) := by
      unfold lineHit
      rw [get_append_cons]
    have habs : |y - c| ≤ half ↔ (c - half ≤ y ∧ y ≤ c + half) := by
      rw [abs_sub_le_iff]
      constructor
      · rintro ⟨h1, h2⟩
        exact ⟨by linarith, by linarith⟩
      · rintro ⟨h1, h2⟩
        exact ⟨by linarith, by linarith⟩
    show scanLoop (pre ++ c :: rest) half y (rest.length + 1) pre.length = _
    by_cases hc : |y - c| ≤ half
    · have hband : (c - half ≤ y ∧ y ≤ c + half) := habs.mp hc
      rw [scanLoop, hhit]
      simp only [hband, decide_eq_true_eq, if_true, decide_True]
      rw [specFirstMatch, if_pos hc]
      simp
    · have hband : ¬(c - half ≤ y ∧ y ≤ c + half) := fun h => hc (habs.mpr h)
      rw [scanLoop, hhit]
      simp only [hband, decide_False, Bool.false_eq_true, if_false]
      have hassoc : pre ++ c :: rest = (pre ++ [c]) ++ rest := by simp
      have hlen : pre.length + 1 = (pre ++ [c]).length := by simp
      rw [hassoc, hlen, ih (pre ++ [c])]
      rw [specFirstMatch, if_neg hc]
      cases specFirstMatch half y rest with
      | none => simp
      | some j =>
        simp
        omega

theorem updateLine_spec (s : DetState) (ys : List ℚ) (y t : ℚ)
    (hys : s.lineYs = some ys) (hn : s.lineCount = ys.length) :
    (updateLineFromGaze s y t).currentLine =
      (match specFirstMatch s.lineHalf y ys with
        | some i => some i
        | none => s.currentLine) := by
  unfold updateLineFromGaze
  rw [hys]
  simp only []
  by_cases h0 : s.lineCount = 0
  · rw [if_pos h0]
    have hnil : ys = [] := List.length_eq_zero.mp (by omega)
    subst hnil
    simp [specFirstMatch]
  · rw [if_neg h0, hn]
    have hscan := scanLoop_spec s.lineHalf y ys []
    simp only [List.nil_append, List.length_nil] at hscan
    rw [hscan]
    cases hm : specFirstMatch s.lineHalf y ys with
    | none => simp
    | some i =>
      simp only [Option.map_some, add_zero]
      by_cases hcl : s.currentLine = some i
      · simp [hcl]
      · simp [hcl]

theorem demoFire_hit : updateLineFromGaze demoFireState 100 1000 =
    { demoFireState with currentLine := some 1, lastLineChangeT := 1000 } := by
  norm_num [updateLineFromGaze, scanLoop, lineHit, demoFireState]
  simp

theorem demoFire_stageD : stageD demoFireState 1000 990 980 (-10) (-10) 0 100 =
    { demoFireState with
        currentLine := some 1
        lastLineChangeT := 1000
        sx1 := -8
        sx2 := 5
        vx2 := -1
        lastPeakTime := 990 } := by
  rw [stageD_eq, demoFire_hit]
  norm_num [velocity, smoothX, demoFireState]

theorem demoFire_eval :
    (processStep demoFireState 1000 990 980 (-10) (-10) 0 100).2 = some (0, -1) := by
  have hv1 : velocity ((-10 : ℚ) - 0) (990 - 980) = -1 := by norm_num [velocity]
  have hv0 : velocity ((-10 : ℚ) - (-10)) (1000 - 990) = 0 := by norm_num [velocity]
  have hcond : (velocity ((-10 : ℚ) - 0) (990 - 980) < demoFireState.vx2 ∧
      velocity ((-10 : ℚ) - 0) (990 - 980) < velocity ((-10 : ℚ) - (-10)) (1000 - 990)) ∧
      velocity ((-10 : ℚ) - 0) (990 - 980) < -(4 / 10) := by
    rw [hv1, hv0]
    norm_num [demoFireState]
  simp only [processStep]
  rw [if_pos hcond, demoFire_stageD, hv1]
  norm_num [gateAndFire, demoFireState]

/-- Claim C1: within one content block (every step processed after a
`lockLayout`), the sequence of `completedLineIndex` values passed to the
trigger callback is strictly increasing.  Each fire requires the current
hit-test line to exceed `maxLineReached` and sets `maxLineReached` to that
line (`step_fire`), which forces the emitted `line - 1` values up. -/
theorem pang_completedLine_strictMono (s0 : DetState) (ys : List ℚ)
    (lineHalfH now : ℚ) (L : List StepIn) :
    List.Pairwise (fun a b : ℤ × ℚ => a.1 < b.1)
      (runSteps (lockLayout s0 ys lineHalfH now) L).2 :=
  (runSteps_out L (lockLayout s0 ys lineHalfH now)).1

/-- Claim C2: before `lockLayout` has ever been called (fresh construction)
or after `reset` has dropped the layout, no sample sequence can make the
detector invoke the trigger callback, and the current hit-test line stays
unknown (`none`). -/
theorem pang_no_prelock_fire (s : DetState) (L : List StepIn) :
    ((runSteps initState L).2 = [] ∧ (runSteps initState L).1.currentLine = none) ∧
    ((runSteps (reset s) L).2 = [] ∧ (runSteps (reset s) L).1.currentLine = none) := by
  obtain ⟨h1, -, h3⟩ := runSteps_nolayout L initState rfl rfl
  obtain ⟨h4, -, h6⟩ := runSteps_nolayout L (reset s) rfl rfl
  exact ⟨⟨h1, h3⟩, ⟨h4, h6⟩⟩

/-- Claim C3: whenever the trigger callback is invoked, its first argument
`completedLineIndex` is ≥ 0 (never −1: no trigger can occur while the
hit-test line is 0 or unknown) and its second argument, the valley velocity
`v(t−1)`, is strictly negative. -/
theorem pang_fire_args (s : DetState) (t0 t1 t2 x0 x1 x2 y0 : ℚ) (k : ℤ) (w : ℚ)
    (h : (processStep s t0 t1 t2 x0 x1 x2 y0).2 = some (k, w)) :
    0 ≤ k ∧ w < 0 := by
  obtain ⟨line, -, hl0, -, hk, -, hwlt, -, -, -, -, -⟩ :=
    step_fire _ _ _ _ _ _ _ _ _ _ h
  constructor
  · omega
  · linarith

/-- Claim C3 witness: a concrete step that fires with arguments `(0, -1)`. -/
theorem pang_fire_args_witness :
    (processStep demoFireState 1000 990 980 (-10) (-10) 0 100).2 = some (0, -1) ∧
    (0 ≤ (0 : ℤ) ∧ (-1 : ℚ) < 0) :=
  ⟨demoFire_eval,
    pang_fire_args demoFireState 1000 990 980 (-10) (-10) 0 100 0 (-1) demoFire_eval⟩

/-- Claim C4: any two fired triggers are at least the 500 ms cooldown apart
(in terms of the newest-sample timestamp `now` at which they fired), so two
candidate valleys whose newest-sample timestamps are less than 500 ms apart
produce at most one trigger. -/
theorem pang_cooldown (s : DetState) (L : List StepIn) :
    List.Pairwise (fun p q : ℚ => 500 ≤ q - p) (fireTimes s L) :=
  (fireTimes_out L s).1

/-- Claim C5: a step can fire only when the valley timestamp `t1` is within
600 ms (absolute difference) of the `lastPeakTime` recorded by the peak
tracker as of this step's stage D; a valley at distance ≥ 600 ms from the
recorded peak never fires. -/
theorem pang_cascade_window (s : DetState) (t0 t1 t2 x0 x1 x2 y0 : ℚ) (k : ℤ) (w : ℚ)
    (h : (processStep s t0 t1 t2 x0 x1 x2 y0).2 = some (k, w)) :
    |t1 - (stageD s t0 t1 t2 x0 x1 x2 y0).lastPeakTime| < 600 := by
  obtain ⟨line, -, -, -, -, -, -, -, -, -, hcw, -⟩ :=
    step_fire _ _ _ _ _ _ _ _ _ _ h
  exact hcw

/-- Claim C5 witness: the concrete firing step satisfies the cascade
window. -/
theorem pang_cascade_window_witness :
    (processStep demoFireState 1000 990 980 (-10) (-10) 0 100).2 = some (0, -1) ∧
    |990 - (stageD demoFireState 1000 990 980 (-10) (-10) 0 100).lastPeakTime| < 600 :=
  ⟨demoFire_eval,
    pang_cascade_window demoFireState 1000 990 980 (-10) (-10) 0 100 0 (-1) demoFire_eval⟩

/-- Claim C6: on every processing step with at least 3 buffered samples the
smoothed X stored for the newest sample equals
`0.5·x(t) + 0.3·x(t−1) + 0.2·x(t−2)`, and the stored per-step velocity
`v(t−1)` equals `(x(t−1) − x(t−2)) / (t(t−1) − t(t−2))` with the value
forced to 0 when the timestamp delta is ≤ 0; the step-local `v(t)` is the
same guarded quotient of the newest pair. -/
theorem pang_smoothing_velocity (s : DetState) (gx gy gt : ℕ → ℚ)
    (N gIdx gCount : ℕ) (h3 : 3 ≤ gCount) :
    (process s gx gy gt N gIdx gCount).1.sx1 =
        gx ((gIdx + N - 1) % N) * (5 / 10) + gx ((gIdx + N - 2) % N) * (3 / 10)
          + gx ((gIdx + N - 3) % N) * (2 / 10) ∧
    (process s gx gy gt N gIdx gCount).1.vx2 =
        (if 0 < gt ((gIdx + N - 2) % N) - gt ((gIdx + N - 3) % N) then
          (gx ((gIdx + N - 2) % N) - gx ((gIdx + N - 3) % N)) /
            (gt ((gIdx + N - 2) % N) - gt ((gIdx + N - 3) % N))
        else 0) ∧
    velocity (gx ((gIdx + N - 1) % N) - gx ((gIdx + N - 2) % N))
        (gt ((gIdx + N - 1) % N) - gt ((gIdx + N - 2) % N)) =
        (if 0 < gt ((gIdx + N - 1) % N) - gt ((gIdx + N - 2) % N) then
          (gx ((gIdx + N - 1) % N) - gx ((gIdx + N - 2) % N)) /
            (gt ((gIdx + N - 1) % N) - gt ((gIdx + N - 2) % N))
        else 0) := by
  have hng : ¬ gCount < 3 := by omega
  refine ⟨?_, ?_, rfl⟩
  · simp only [process]
    rw [if_neg hng, step_sx1]
    rfl
  · simp only [process]
    rw [if_neg hng, step_vx2]
    rfl

/-- Claim C6 witness: concrete buffers, `N = 8`, `gIdx = 3`, `gCount = 3`. -/
theorem pang_smoothing_velocity_witness :
    3 ≤ 3 ∧
    ((process initState demoBuf demoZeroBuf demoBuf 8 3 3).1.sx1 =
        demoBuf ((3 + 8 - 1) % 8) * (5 / 10) + demoBuf ((3 + 8 - 2) % 8) * (3 / 10)
          + demoBuf ((3 + 8 - 3) % 8) * (2 / 10) ∧
    (process initState demoBuf demoZeroBuf demoBuf 8 3 3).1.vx2 =
        (if 0 < demoBuf ((3 + 8 - 2) % 8) - demoBuf ((3 + 8 - 3) % 8) then
          (demoBuf ((3 + 8 - 2) % 8) - demoBuf ((3 + 8 - 3) % 8)) /
            (demoBuf ((3 + 8 - 2) % 8) - demoBuf ((3 + 8 - 3) % 8))
        else 0) ∧
    velocity (demoBuf ((3 + 8 - 1) % 8) - demoBuf ((3 + 8 - 2) % 8))
        (demoBuf ((3 + 8 - 1) % 8) - demoBuf ((3 + 8 - 2) % 8)) =
        (if 0 < demoBuf ((3 + 8 - 1) % 8) - demoBuf ((3 + 8 - 2) % 8) then
          (demoBuf ((3 + 8 - 1) % 8) - demoBuf ((3 + 8 - 2) % 8)) /
            (demoBuf ((3 + 8 - 1) % 8) - demoBuf ((3 + 8 - 2) % 8))
        else 0)) :=
  ⟨le_refl 3, pang_smoothing_velocity initState demoBuf demoZeroBuf demoBuf 8 3 3 (le_refl 3)⟩

theorem demoNoValley_hit : updateLineFromGaze demoNoValleyState 100 60 =
    { demoNoValleyState with currentLine := some 0, lastLineChangeT := 60 } := by
  norm_num [updateLineFromGaze, scanLoop, lineHit, demoNoValleyState]
  simp

theorem demoNoValley_stageD : stageD demoNoValleyState 60 50 40 0 0 0 100 =
    { demoNoValleyState with
        currentLine := some 0
        lastLineChangeT := 60
        sx1 := 0
        sx2 := 5
        vx2 := 0
        lastPeakTime := 50 } := by
  rw [stageD_eq, demoNoValley_hit]
  norm_num [velocity, smoothX, demoNoValleyState]

/-- The no-valley condition of the concrete all-zero-velocity step. -/
theorem demoNoValley_nv :
    ¬((velocity ((0 : ℚ) - 0) (50 - 40) < demoNoValleyState.vx2 ∧
        velocity ((0 : ℚ) - 0) (50 - 40) < velocity ((0 : ℚ) - 0) (60 - 50)) ∧
      velocity ((0 : ℚ) - 0) (50 - 40) < -(4 / 10)) := by
  norm_num [velocity, demoNoValleyState]

theorem demoNoValley_eval : processStep demoNoValleyState 60 50 40 0 0 0 100 =
    ({ demoNoValleyState with
        currentLine := some 0
        lastLineChangeT := 60
        sx1 := 0
        sx2 := 5
        vx2 := 0
        lastPeakTime := 50 }, none) := by
  simp only [processStep]
  rw [if_neg demoNoValley_nv, demoNoValley_stageD]

/-- Claim C7 counterexample: a step on which no velocity valley is detected
(all velocities are 0) still updates `lastPeakTime` (the peak tracker runs
before the valley check) and `currentLine` (the hit-test runs first), so the
claim that such a step leaves them unchanged is false. -/
theorem pang_no_valley_claim_cex :
    ¬((velocity ((0 : ℚ) - 0) (50 - 40) < demoNoValleyState.vx2 ∧
        velocity ((0 : ℚ) - 0) (50 - 40) < velocity ((0 : ℚ) - 0) (60 - 50)) ∧
      velocity ((0 : ℚ) - 0) (50 - 40) < -(4 / 10)) ∧
    (processStep demoNoValleyState 60 50 40 0 0 0 100).2 = none ∧
    (processStep demoNoValleyState 60 50 40 0 0 0 100).1.lastPeakTime ≠
      demoNoValleyState.lastPeakTime ∧
    (processStep demoNoValleyState 60 50 40 0 0 0 100).1.currentLine ≠
      demoNoValleyState.currentLine := by
  refine ⟨demoNoValley_nv, ?_, ?_, ?_⟩
  · rw [demoNoValley_eval]
  · rw [demoNoValley_eval]
    norm_num [demoNoValleyState]
  · rw [demoNoValley_eval]
    simp [demoNoValleyState]

theorem step_no_valley (s : DetState) (t0 t1 t2 x0 x1 x2 y0 : ℚ)
    (hNV : ¬((velocity (x1 - x2) (t1 - t2) < s.vx2 ∧
        velocity (x1 - x2) (t1 - t2) < velocity (x0 - x1) (t0 - t1)) ∧
        velocity (x1 - x2) (t1 - t2) < -(4 / 10))) :
    processStep s t0 t1 t2 x0 x1 x2 y0 = (stageD s t0 t1 t2 x0 x1 x2 y0, none) := by
  simp only [processStep]
  rw [if_neg hNV]

/-- Claim C7 (amended): on a step where the valley test fails, the gate is
not evaluated and the step returns the stage-D state with no callback; in
particular `lastTriggerTime` and `maxLineReached` are unchanged.  (The
hit-test, the peak tracker and the rolling caches run before the valley
check and may still update `currentLine`, `lastLineChangeT`,
`lastPeakTime`, `sx1`, `sx2`, `vx2`.) -/
theorem pang_no_valley_step (s : DetState) (t0 t1 t2 x0 x1 x2 y0 : ℚ)
    (hNV : ¬((velocity (x1 - x2) (t1 - t2) < s.vx2 ∧
        velocity (x1 - x2) (t1 - t2) < velocity (x0 - x1) (t0 - t1)) ∧
        velocity (x1 - x2) (t1 - t2) < -(4 / 10))) :
    processStep s t0 t1 t2 x0 x1 x2 y0 = (stageD s t0 t1 t2 x0 x1 x2 y0, none) ∧
    (processStep s t0 t1 t2 x0 x1 x2 y0).1.lastTriggerTime = s.lastTriggerTime ∧
    (processStep s t0 t1 t2 x0 x1 x2 y0).1.maxLineReached = s.maxLineReached := by
  have heq := step_no_valley s t0 t1 t2 x0 x1 x2 y0 hNV
  refine ⟨heq, ?_, ?_⟩ <;> rw [heq]
  · exact sD_lastTriggerTime1 s t0 t1 t2 x0 x1 x2 y0
  · exact sD_maxLineReached1 s t0 t1 t2 x0 x1 x2 y0

/-- Claim C7 (amended) witness: the concrete no-valley step. -/
theorem pang_no_valley_step_witness :
    (¬((velocity ((0 : ℚ) - 0) (50 - 40) < demoNoValleyState.vx2 ∧
        velocity ((0 : ℚ) - 0) (50 - 40) < velocity ((0 : ℚ) - 0) (60 - 50)) ∧
        velocity ((0 : ℚ) - 0) (50 - 40) < -(4 / 10))) ∧
    (processStep demoNoValleyState 60 50 40 0 0 0 100 =
      (stageD demoNoValleyState 60 50 40 0 0 0 100, none) ∧
    (processStep demoNoValleyState 60 50 40 0 0 0 100).1.lastTriggerTime =
      demoNoValleyState.lastTriggerTime ∧
    (processStep demoNoValleyState 60 50 40 0 0 0 100).1.maxLineReached =
      demoNoValleyState.maxLineReached) :=
  ⟨demoNoValley_nv, pang_no_valley_step demoNoValleyState 60 50 40 0 0 0 100 demoNoValley_nv⟩

/-- Claim C8: under a locked layout (`lineYs` present and `lineCount` equal
to its length, as `lockLayout` establishes), the hit-test maps Y to the
first line index `i` with `|y − centerY[i]| ≤ halfHeight`
(`specFirstMatch`, written from the spec); on a miss the current line is
left unchanged (sticky), and the result is `none` only if it already was
`none`, i.e. only while no line has ever matched since the last
lock/reset. -/
theorem pang_hit_test (s : DetState) (ys : List ℚ) (y t : ℚ)
    (hys : s.lineYs = some ys) (hn : s.lineCount = ys.length) :
    ((updateLineFromGaze s y t).currentLine =
      match specFirstMatch s.lineHalf y ys with
      | some i => some i
      | none => s.currentLine) ∧
    ((updateLineFromGaze s y t).currentLine = none → s.currentLine = none) := by
  have h := updateLine_spec s ys y t hys hn
  refine ⟨h, fun hnone => ?_⟩
  rw [h] at hnone
  cases hm : specFirstMatch s.lineHalf y ys with
  | none =>
    rw [hm] at hnone
    exact hnone
  | some i =>
    rw [hm] at hnone
    simp at hnone

/-- Claim C8 witness: two lines at center-Y 10 and 30 with half-height 5;
`y = 28` hits line 1 (first matching index), moving the current line from
0 to 1. -/
theorem pang_hit_test_witness :
    demoHitState.lineYs = some [10, 30] ∧
    demoHitState.lineCount = ([10, 30] : List ℚ).length ∧
    (((updateLineFromGaze demoHitState 28 5).currentLine =
      match specFirstMatch demoHitState.lineHalf 28 [10, 30] with
      | some i => some i
      | none => demoHitState.currentLine) ∧
    ((updateLineFromGaze demoHitState 28 5).currentLine = none →
      demoHitState.currentLine = none)) :=
  ⟨rfl, rfl, pang_hit_test demoHitState [10, 30] 28 5 rfl rfl⟩

/-- Claim C9: `reset` is idempotent, and on a detector that was never
layout-locked (so `lineHalf` still holds its constructor value 0, the one
field `reset` does not touch) a `reset` produces exactly the freshly
constructed state. -/
theorem pang_reset_idempotent (s : DetState) :
    reset (reset s) = reset s ∧ (s.lineHalf = 0 → reset s = initState) := by
  constructor
  · rfl
  · intro h
    simp [reset, initState, h]

/-- Claim C9 witness: a dirty never-locked state. -/
theorem pang_reset_idempotent_witness :
    demoDirtyState.lineHalf = 0 ∧
    reset (reset demoDirtyState) = reset demoDirtyState ∧
    reset demoDirtyState = initState :=
  ⟨rfl, (pang_reset_idempotent demoDirtyState).1,
    (pang_reset_idempotent demoDirtyState).2 rfl⟩

/-- Claim C10: `lockLayout` zeroes the rolling caches `sx1`, `sx2`, `vx2`,
so on the first processing step after a lock the position-peak test reduces
to comparisons of the freshly computed `sx(t)` against the constant 0 (its
plateau half `sx2 ≤ sx1` is `0 ≤ 0`, hence the peak fires iff
`smoothX < 0` or the velocity zero-crossing holds), and the valley test
compares the freshly computed `v(t−1)` against the constant 0 in place of
the `v(t−2)` cache — whatever the buffered sample history contains. -/
theorem pang_lock_zeroes_caches (s0 : DetState) (ys : List ℚ)
    (lineHalfH now t0 t1 t2 x0 x1 x2 y0 : ℚ) :
    (lockLayout s0 ys lineHalfH now).sx1 = 0 ∧
    (lockLayout s0 ys lineHalfH now).sx2 = 0 ∧
    (lockLayout s0 ys lineHalfH now).vx2 = 0 ∧
    ((stageD (lockLayout s0 ys lineHalfH now) t0 t1 t2 x0 x1 x2 y0).lastPeakTime =
      if smoothX x0 x1 x2 < 0 ∨
          (0 ≤ velocity (x1 - x2) (t1 - t2) ∧ velocity (x0 - x1) (t0 - t1) < 0) then t1
      else 0) ∧
    (¬((velocity (x1 - x2) (t1 - t2) < 0 ∧
          velocity (x1 - x2) (t1 - t2) < velocity (x0 - x1) (t0 - t1)) ∧
        velocity (x1 - x2) (t1 - t2) < -(4 / 10)) →
      processStep (lockLayout s0 ys lineHalfH now) t0 t1 t2 x0 x1 x2 y0 =
        (stageD (lockLayout s0 ys lineHalfH now) t0 t1 t2 x0 x1 x2 y0, none)) := by
  refine ⟨rfl, rfl, rfl, ?_, ?_⟩
  · rw [stageD_eq]
    simp [lockLayout]
  · intro hNV
    exact step_no_valley (lockLayout s0 ys lineHalfH now) t0 t1 t2 x0 x1 x2 y0 hNV

/-- A step whose velocities are all zero detects no valley. -/
theorem zero_vel_no_valley :
    ¬((velocity ((0 : ℚ) - 0) (50 - 40) < 0 ∧
        velocity ((0 : ℚ) - 0) (50 - 40) < velocity ((0 : ℚ) - 0) (60 - 50)) ∧
      velocity ((0 : ℚ) - 0) (50 - 40) < -(4 / 10)) := by
  norm_num [velocity]

/-- Claim C10 witness: a concrete lock followed by one concrete step. -/
theorem pang_lock_zeroes_caches_witness :
    (lockLayout initState [100] 5 1).sx1 = 0 ∧
    (lockLayout initState [100] 5 1).sx2 = 0 ∧
    (lockLayout initState [100] 5 1).vx2 = 0 ∧
    ((stageD (lockLayout initState [100] 5 1) 60 50 40 0 0 0 100).lastPeakTime =
      if smoothX 0 0 0 < 0 ∨
          (0 ≤ velocity ((0 : ℚ) - 0) (50 - 40) ∧ velocity ((0 : ℚ) - 0) (60 - 50) < 0) then 50
      else 0) ∧
    (¬((velocity ((0 : ℚ) - 0) (50 - 40) < 0 ∧
          velocity ((0 : ℚ) - 0) (50 - 40) < velocity ((0 : ℚ) - 0) (60 - 50)) ∧
        velocity ((0 : ℚ) - 0) (50 - 40) < -(4 / 10))) ∧
    processStep (lockLayout initState [100] 5 1) 60 50 40 0 0 0 100 =
      (stageD (lockLayout initState [100] 5 1) 60 50 40 0 0 0 100, none) := by
  have T := pang_lock_zeroes_caches initState [100] 5 1 60 50 40 0 0 0 100
  exact ⟨T.1, T.2.1, T.2.2.1, T.2.2.2.1, zero_vel_no_valley, T.2.2.2.2 zero_vel_no_valley⟩
